import Mathlib

/-!
Shallow embedding of `src/register.rs` from the rppal-mfrc522 repository.

The source file defines three `#[repr(u8)]` Rust enumerations — `Register`,
`RxGain` and `Command` — each with explicit discriminant values, together with
`From<_> for u8` implementations that return `variant as u8` (the declared
discriminant). Each enumeration is embedded as a Lean inductive type, and the
`u8` conversion as a total function into `Nat` whose equations list exactly the
discriminants declared in the source (all of which are below 256, so the Rust
cast is the identity on the declared value).
-/

/-- Embeds `pub enum Register` (src/register.rs lines 6–108): the closed list
of MFRC522 register names, in source order. -/
inductive Register
  | CommandReg
  | ComlEnReg
  | DivlEnReg
  | ComIrqReg
  | DivIrqReg
  | ErrorReg
  | Status1Reg
  | Status2Reg
  | FIFODataReg
  | FIFOLevelReg
  | WaterLevelReg
  | ControlReg
  | BitFramingReg
  | CollReg
  | ModeReg
  | TxModeReg
  | RxModeReg
  | TxControlReg
  | TxASKReg
  | TxSelReg
  | RxSelReg
  | RxThresholdReg
  | DemodReg
  | MfTxReg
  | MfRxReg
  | SerialSpeedReg
  | CRCResultRegHigh
  | CRCResultRegLow
  | ModWidthReg
  | RFCfgReg
  | GsNReg
  | CWGsPReg
  | ModGsPReg
  | TModeReg
  | TPrescalerReg
  | TReloadRegHigh
  | TReloadRegLow
  | TCounterValRegHigh
  | TCounterValRegLow
  | TestSel1Reg
  | TestSel2Reg
  | TestPinEnReg
  | TestPinValueReg
  | TestBusReg
  | AutoTestReg
  | VersionReg
  | AnalogTestReg
  | TestDAC1Reg
  | TestDAC2Reg
  | TestADCReg
  deriving DecidableEq, Fintype, Repr

/-- Embeds `impl From<Register> for u8` (src/register.rs lines 110–115):
`variant as u8`, i.e. the discriminant declared on each variant of
`pub enum Register`. -/
def Register.toU8 : Register → Nat
  | .CommandReg => 0x01
  | .ComlEnReg => 0x02
  | .DivlEnReg => 0x03
  | .ComIrqReg => 0x04
  | .DivIrqReg => 0x05
  | .ErrorReg => 0x06
  | .Status1Reg => 0x07
  | .Status2Reg => 0x08
  | .FIFODataReg => 0x09
  | .FIFOLevelReg => 0x0A
  | .WaterLevelReg => 0x0B
  | .ControlReg => 0x0C
  | .BitFramingReg => 0x0D
  | .CollReg => 0x0E
  | .ModeReg => 0x11
  | .TxModeReg => 0x12
  | .RxModeReg => 0x13
  | .TxControlReg => 0x14
  | .TxASKReg => 0x15
  | .TxSelReg => 0x16
  | .RxSelReg => 0x17
  | .RxThresholdReg => 0x18
  | .DemodReg => 0x19
  | .MfTxReg => 0x1C
  | .MfRxReg => 0x1D
  | .SerialSpeedReg => 0x1F
  | .CRCResultRegHigh => 0x21
  | .CRCResultRegLow => 0x22
  | .ModWidthReg => 0x24
  | .RFCfgReg => 0x26
  | .GsNReg => 0x27
  | .CWGsPReg => 0x28
  | .ModGsPReg => 0x29
  | .TModeReg => 0x2A
  | .TPrescalerReg => 0x2B
  | .TReloadRegHigh => 0x2C
  | .TReloadRegLow => 0x2D
  | .TCounterValRegHigh => 0x2E
  | .TCounterValRegLow => 0x2F
  | .TestSel1Reg => 0x31
  | .TestSel2Reg => 0x32
  | .TestPinEnReg => 0x33
  | .TestPinValueReg => 0x34
  | .TestBusReg => 0x35
  | .AutoTestReg => 0x36
  | .VersionReg => 0x37
  | .AnalogTestReg => 0x38
  | .TestDAC1Reg => 0x39
  | .TestDAC2Reg => 0x3A
  | .TestADCReg => 0x3B

/-- Embeds `pub enum RxGain` (src/register.rs lines 122–137): the receiver
signal voltage gain presets, in source order. -/
inductive RxGain
  | DB18
  | DB23
  | DB33
  | DB38
  | DB43
  | DB48
  deriving DecidableEq, Fintype, Repr

/-- Embeds `impl From<RxGain> for u8` (src/register.rs lines 139–144):
`variant as u8`, i.e. the discriminant declared on each variant of
`pub enum RxGain`. -/
def RxGain.toU8 : RxGain → Nat
  | .DB18 => 0x00
  | .DB23 => 0x10
  | .DB33 => 0x40
  | .DB38 => 0x50
  | .DB43 => 0x60
  | .DB48 => 0x70

/-- Embeds `pub enum Command` (src/register.rs lines 150–171): the MFRC522
command opcodes, in source order. -/
inductive Command
  | Idle
  | Mem
  | GenerateRandomId
  | CalcCRC
  | Transmit
  | NoCmdChange
  | Receive
  | Transceive
  | MFAuthent
  | SoftReset
  deriving DecidableEq, Fintype, Repr

/-- Embeds `impl From<Command> for u8` (src/register.rs lines 173–178):
`variant as u8`, i.e. the discriminant declared on each variant of
`pub enum Command`. -/
def Command.toU8 : Command → Nat
  | .Idle => 0b0000
  | .Mem => 0b0001
  | .GenerateRandomId => 0b0010
  | .CalcCRC => 0b0011
  | .Transmit => 0b0100
  | .NoCmdChange => 0b0111
  | .Receive => 0b1000
  | .Transceive => 0b1100
  | .MFAuthent => 0b1110
  | .SoftReset => 0b1111

/-- State-passing embedding of `impl From<Register> for u8`. The Rust function
body `variant as _` reads no state and writes no state, so its state-passing
form threads the ambient state `s` through unchanged and produces the same
byte `Register.toU8 variant` it produces in the pure form. -/
def Register.fromWithState {σ : Type} (variant : Register) (s : σ) : Nat × σ :=
  (variant.toU8, s)

/-- State-passing embedding of `impl From<RxGain> for u8`; the body
`variant as _` neither reads nor writes any ambient state. -/
def RxGain.fromWithState {σ : Type} (variant : RxGain) (s : σ) : Nat × σ :=
  (variant.toU8, s)

/-- State-passing embedding of `impl From<Command> for u8`; the body
`variant as _` neither reads nor writes any ambient state. -/
def Command.fromWithState {σ : Type} (variant : Command) (s : σ) : Nat × σ :=
  (variant.toU8, s)

/-! ## Claim theorems -/

/-- C1: every `Register` variant's declared numeric value round-trips through
the `u8` conversion unchanged (the byte conversion does not truncate it:
reducing the converted value modulo 256 leaves it fixed), and the conversion
is injective — no two distinct `Register` variants convert to the same `u8`
value. -/
theorem register_toU8_roundtrip_and_injective :
    (∀ r : Register, Register.toU8 r % 256 = Register.toU8 r) ∧
      Function.Injective Register.toU8 := by
  constructor
  · decide
  · intro a b h
    revert h
    revert a b
    decide

/-- C2: for each of the three enumerations `Register`, `Command`, `RxGain`,
the `u8` conversion is a function (each variant converts to exactly one fixed
value) and is injective: no two distinct variants of the same enumeration
share a `u8` value. -/
theorem all_enums_toU8_injective :
    Function.Injective Register.toU8 ∧
      Function.Injective Command.toU8 ∧
        Function.Injective RxGain.toU8 := by
  refine ⟨?_, ?_, ?_⟩ <;> · intro a b h; revert h; revert a b; decide

/-- C3: every `Register` variant converts to a `u8` value in the range
`0x01`–`0x3B` inclusive; in particular every value fits in a 6-bit address
field (it is below `0x40`). -/
theorem register_toU8_range :
    ∀ r : Register,
      0x01 ≤ Register.toU8 r ∧ Register.toU8 r ≤ 0x3B ∧
        Register.toU8 r < 0x40 := by
  decide

/-- C4: every `Command` variant converts to an opcode that fits in 4 bits
(its value is below `0x10`), so writing it affects only the low nibble of
`CommandReg`. -/
theorem command_toU8_fits_in_4_bits :
    ∀ c : Command, Command.toU8 c < 0x10 := by
  decide

/-- C5: every `RxGain` variant converts to a byte occupying only bits 4–6:
its bitwise AND with the complementary mask `0b1000_1111` is zero, so a
masked write of the gain cannot disturb the reserved upper and lower bits of
`RFCfgReg`. -/
theorem rxgain_toU8_only_bits_4_to_6 :
    ∀ g : RxGain, RxGain.toU8 g &&& 0b10001111 = 0 := by
  decide

/-- C6: the `Command` enumeration contains the `NoCmdChange` variant and its
`u8` conversion equals `0b0111`, the no-op sentinel opcode. -/
theorem command_noCmdChange_is_0b0111 :
    Command.toU8 Command.NoCmdChange = 0b0111 := rfl

/-- C7: the named constants carry their fixed silicon byte values:
`Register.CommandReg ↦ 0x01`, `Register.FIFODataReg ↦ 0x09`,
`Register.FIFOLevelReg ↦ 0x0A`, `Register.RFCfgReg ↦ 0x26`,
`Command.Transceive ↦ 0b1100`, `Command.SoftReset ↦ 0b1111`,
`RxGain.DB33 ↦ 0x40`. -/
theorem named_constants_byte_values :
    Register.toU8 Register.CommandReg = 0x01 ∧
      Register.toU8 Register.FIFODataReg = 0x09 ∧
        Register.toU8 Register.FIFOLevelReg = 0x0A ∧
          Register.toU8 Register.RFCfgReg = 0x26 ∧
            Command.toU8 Command.Transceive = 0b1100 ∧
              Command.toU8 Command.SoftReset = 0b1111 ∧
                RxGain.toU8 RxGain.DB33 = 0x40 := by
  decide

/-- C8: the `u8` conversions of `Register`, `Command` and `RxGain` are pure
and deterministic: in the state-passing embedding, the byte produced for a
variant is independent of the surrounding state (two calls under any two
states return the same byte, equal to the pure conversion), and the call
leaves the state unchanged. -/
theorem toU8_pure_and_deterministic :
    (∀ (σ : Type) (v : Register) (s t : σ),
        (Register.fromWithState v s).1 = (Register.fromWithState v t).1 ∧
          (Register.fromWithState v s).1 = Register.toU8 v ∧
            (Register.fromWithState v s).2 = s) ∧
      (∀ (σ : Type) (v : Command) (s t : σ),
          (Command.fromWithState v s).1 = (Command.fromWithState v t).1 ∧
            (Command.fromWithState v s).1 = Command.toU8 v ∧
              (Command.fromWithState v s).2 = s) ∧
        (∀ (σ : Type) (v : RxGain) (s t : σ),
            (RxGain.fromWithState v s).1 = (RxGain.fromWithState v t).1 ∧
              (RxGain.fromWithState v s).1 = RxGain.toU8 v ∧
                (RxGain.fromWithState v s).2 = s) := by
  refine ⟨?_, ?_, ?_⟩ <;> exact fun σ v s t => ⟨rfl, rfl, rfl⟩

/-- C9: the set of `u8` values reachable from `RxGain` variants is exactly
`{0x00, 0x10, 0x40, 0x50, 0x60, 0x70}`; in particular no variant converts to
the datasheet alias encodings `0x20` or `0x30`. -/
theorem rxgain_toU8_image_exact :
    (∀ g : RxGain,
        RxGain.toU8 g ∈ ([0x00, 0x10, 0x40, 0x50, 0x60, 0x70] : List Nat)) ∧
      (∀ n ∈ ([0x00, 0x10, 0x40, 0x50, 0x60, 0x70] : List Nat),
          ∃ g : RxGain, RxGain.toU8 g = n) ∧
        (∀ g : RxGain, RxGain.toU8 g ≠ 0x20 ∧ RxGain.toU8 g ≠ 0x30) := by
  decide

/-- C10: no `Command` variant converts to a reserved MFRC522 opcode: every
converted value lies in the list of defined opcodes
`{0b0000, 0b0001, 0b0010, 0b0011, 0b0100, 0b0111, 0b1000, 0b1100, 0b1110,
0b1111}` and never in the reserved list
`{0b0101, 0b0110, 0b1001, 0b1010, 0b1011, 0b1101}`. -/
theorem command_toU8_avoids_reserved_opcodes :
    ∀ c : Command,
      Command.toU8 c ∈
          ([0b0000, 0b0001, 0b0010, 0b0011, 0b0100, 0b0111, 0b1000, 0b1100,
            0b1110, 0b1111] : List Nat) ∧
        Command.toU8 c ∉
          ([0b0101, 0b0110, 0b1001, 0b1010, 0b1011, 0b1101] : List Nat) := by
  decide
